import Mathlib

set_option maxRecDepth 200000

/-!
Verification of the chat preprocessing pipeline of `wp_chat_analyzer`
(`src/utils.py`, function `preprocess_chat`).

The Python function decodes an uploaded file (utf-8, then utf-8-sig, then
latin-1), extracts message blocks with `re.findall` using a timestamped
pattern (with an AM/PM marker; a second pattern without the marker is
attempted when the first finds nothing), converts the timestamp column with
`pd.to_datetime(errors='coerce')`, drops rows whose timestamp failed to
parse, and derives per-record fields: `has_media`, `has_url`, `emojis`,
`emoji_count`, `message_length`, `date`, `day`, `hour`, `month`, `year`,
and a whitespace-stripped `user`.

The primary pattern is
  (\d\x7b1,2\x7d/\d\x7b1,2\x7d/\d\x7b2,4\x7d,\s\d\x7b1,2\x7d:\d\x7b2\x7d(?::\d\x7b2\x7d)?\s[APap][Mm])\s-\s(.*?):\s(.*?)(?=\n...\s-\s|$)
and is embedded below as a specialized matcher.  Every bounded digit run
in the pattern is followed by a non-digit item ('/', ',', ':', a
whitespace class or [APap]), so the backtracking semantics of
`\d\x7bl,h\x7d` collapses to: take the maximal digit run, succeed exactly
when its length lies in [l, h].  The two lazy groups collapse likewise:
group 2 `(.*?)` is the shortest prefix followed by ':' and one whitespace
character, because the remainder of the pattern (group 3 plus the
lookahead) succeeds on every suffix (the `$` alternative of the lookahead
holds at the end of the string); group 3 `(.*?)` with `re.DOTALL` is the
shortest prefix after which the lookahead holds.
-/

/-- The `\s` character class of Python `re` restricted to the ASCII and
Latin-1 whitespace characters (the inputs considered are ASCII; the wider
Unicode whitespace characters are omitted). -/
def isWs (c : Char) : Bool :=
  c = ' ' || c = '\t' || c = '\n' || c = '\r' || c = '\x0b' || c = '\x0c' || c = '\x85' || c = '\xa0'

/-- Matcher for a bounded digit run `\d\x7blo,hi\x7d`.  Faithful to the
backtracking engine whenever the following pattern item rejects digits,
which is the case at every use site in the primary pattern. -/
def pDigits (lo hi : Nat) (cs : List Char) : Option (List Char × List Char) :=
  let run := cs.takeWhile Char.isDigit
  if lo ≤ run.length && run.length ≤ hi then
    some (run, cs.drop run.length)
  else
    none

/-- Matcher for one literal character. -/
def pChar (c : Char) : List Char → Option (List Char × List Char)
  | x :: rest => if x = c then some ([x], rest) else none
  | [] => none

/-- Matcher for one `\s` character. -/
def pWs : List Char → Option (List Char × List Char)
  | x :: rest => if isWs x then some ([x], rest) else none
  | [] => none

/-- Matcher for `[APap][Mm]`. -/
def pAmPm : List Char → Option (List Char × List Char)
  | a :: m :: rest =>
    if (a = 'A' || a = 'P' || a = 'a' || a = 'p') && (m = 'M' || m = 'm') then
      some ([a, m], rest)
    else none
  | _ => none

/-- Sequencing of matchers: runs each in turn and concatenates what they
consumed. -/
def pSeq : List (List Char → Option (List Char × List Char)) → List Char →
    Option (List Char × List Char)
  | [], cs => some ([], cs)
  | p :: ps, cs =>
    match p cs with
    | none => none
    | some (a, cs1) =>
      match pSeq ps cs1 with
      | none => none
      | some (b, cs2) => some (a ++ b, cs2)

/-- Matcher for the greedy optional seconds group `(?::\d\x7b2\x7d)?`.  It
needs no backtracking: when it matches, the character after it cannot also
begin the following `\s`, and when its interior fails the engine falls
through to matching nothing, exactly as here. -/
def pOptSec (cs : List Char) : Option (List Char × List Char) :=
  match pChar ':' cs with
  | some (_, cs1) =>
    match pDigits 2 2 cs1 with
    | some (ss, cs2) => some (':' :: ss, cs2)
    | none => some ([], cs)
  | none => some ([], cs)

/-- Matcher for the timestamp part of the primary pattern:
`\d\x7b1,2\x7d/\d\x7b1,2\x7d/\d\x7b2,4\x7d,\s\d\x7b1,2\x7d:\d\x7b2\x7d(?::\d\x7b2\x7d)?\s[APap][Mm]`. -/
def tsMatch (cs : List Char) : Option (List Char × List Char) :=
  pSeq [pDigits 1 2, pChar '/', pDigits 1 2, pChar '/', pDigits 2 4, pChar ',',
        pWs, pDigits 1 2, pChar ':', pDigits 2 2, pOptSec, pWs, pAmPm] cs

/-- Matcher for the separator `\s-\s`. -/
def sepMatch (cs : List Char) : Option (List Char × List Char) :=
  pSeq [pWs, pChar '-', pWs] cs

/-- The `$` anchor of Python `re` without `re.MULTILINE`: it matches at the
end of the string and immediately before a newline that ends the string. -/
def dollarOk : List Char → Bool
  | [] => true
  | c :: rest => c = '\n' && rest.isEmpty

/-- The first alternative of the lookahead: a newline followed by a
timestamp and the `\s-\s` separator, i.e. a next message block starting at
the beginning of the following line. -/
def nlBoundary : List Char → Bool
  | [] => false
  | c :: rest =>
    if c = '\n' then
      match tsMatch rest with
      | some (_, rest2) => (sepMatch rest2).isSome
      | none => false
    else false

/-- The lookahead of the primary pattern,
`(?=\n<timestamp>\s-\s|$)`, evaluated at a suffix of the subject. -/
def lookaheadOk (cs : List Char) : Bool :=
  nlBoundary cs || dollarOk cs

/-- The lazy user group `(.*?):\s`: the shortest prefix followed by a colon
and one whitespace character; the rest of the pattern accepts every suffix,
so the regex engine never extends the group past the first such split. -/
def userScan : List Char → Option (List Char × List Char)
  | ':' :: d :: cs =>
    if isWs d then some ([], cs)
    else
      match userScan (d :: cs) with
      | some (u, rest) => some (':' :: u, rest)
      | none => none
  | c :: cs =>
    match userScan cs with
    | some (u, rest) => some (c :: u, rest)
    | none => none
  | [] => none

/-- The lazy message group `(.*?)` under `re.DOTALL`, followed by the
lookahead: the shortest prefix after which the lookahead holds.  It always
succeeds because the lookahead holds at the end of the string. -/
def msgScan : List Char → List Char × List Char
  | [] => ([], [])
  | c :: rest =>
    if lookaheadOk (c :: rest) then ([], c :: rest)
    else
      let (m, r) := msgScan rest
      (c :: m, r)

/-- One attempted match of the primary pattern at the current position,
returning the three capture groups and the remainder of the subject. -/
def matchAt (cs : List Char) : Option ((List Char × List Char × List Char) × List Char) :=
  match tsMatch cs with
  | none => none
  | some (ts, cs) =>
    match sepMatch cs with
    | none => none
    | some (_, cs) =>
      match userScan cs with
      | none => none
      | some (user, cs) =>
        match msgScan cs with
        | (msg, rest) => some ((ts, user, msg), rest)

/-- The left-to-right non-overlapping scan of `re.findall`: try a match at
each position; on success continue after the match (every match consumes at
least one character), on failure advance one character. -/
def scanAll : Nat → List Char → List (List Char × List Char × List Char)
  | 0, _ => []
  | fuel + 1, cs =>
    match matchAt cs with
    | some (g, rest) => g :: scanAll fuel rest
    | none =>
      match cs with
      | [] => []
      | _ :: t => scanAll fuel t

/-- `re.findall(primary_pattern, content, re.DOTALL)` on a decoded string:
the list of (timestamp, user, message) capture-group triples. -/
def refindall (content : List Char) : List (List Char × List Char × List Char) :=
  scanAll (content.length + 1) content

/-- The primary pattern string of `src/utils.py` line 34, verbatim (braces
written with their escape codes). -/
def primaryPattern : String :=
  "(\\d\x7b1,2\x7d/\\d\x7b1,2\x7d/\\d\x7b2,4\x7d,\\s\\d\x7b1,2\x7d:\\d\x7b2\x7d(?::\\d\x7b2\x7d)?\\s[APap][Mm])\\s-\\s(.*?):\\s(.*?)(?=\\n\\d\x7b1,2\x7d/\\d\x7b1,2\x7d/\\d\x7b2,4\x7d,\\s\\d\x7b1,2\x7d:\\d\x7b2\x7d(?::\\d\x7b2\x7d)?\\s[APap][Mm]\\s-\\s|$)"

/-- The alternative pattern string of `src/utils.py` line 38, verbatim
(braces written with their escape codes). -/
def altPattern : String :=
  "(\\d\x7b1,2\x7d/\\d\x7b1,2\x7d/\\d\x7b2,4\x7d,\\s\\d\x7b1,2\x7d:\\d\x7b2\x7d(?::\\d\x7b2\x7d)?)\\s-\\s(.*?):\\s(.*?)(?=\\n\\d\x7b1,2\x7d/\\d\x7b1,2\x7d/\\d\x7b2,4\x7d,\\s\\d\x7b1,2\x7d:\\d\x7b2\x7d(?::\\d\x7b2\x7d)?)\\s-\\s|$)"

/-- Group-parenthesis scan over a regex pattern: skips escaped characters
and character classes, tracks the nesting depth, and returns the final
depth, or `none` on a closing parenthesis with no matching opening one.
Python's `re.compile` (hence `re.findall`) raises `re.error` exactly when
the parentheses of the pattern do not balance. -/
def parenScan : List Char → Nat → Bool → Option Nat
  | [], d, inClass => if inClass then none else some d
  | '\\' :: _ :: rest, d, inClass => parenScan rest d inClass
  | '[' :: rest, d, false => parenScan rest d true
  | ']' :: rest, d, true => parenScan rest d false
  | '(' :: rest, d, false => parenScan rest (d + 1) false
  | ')' :: rest, d, false =>
    if d = 0 then none else parenScan rest (d - 1) false
  | _ :: rest, d, inClass => parenScan rest d inClass

/-- A regex pattern has balanced group parentheses. -/
def regexParensBalanced (p : String) : Bool :=
  parenScan p.data 0 false = some 0

/-!  Datetime conversion.

`pd.to_datetime(ts, errors='coerce')` on the strings produced by the
timestamp capture group delegates to dateutil-style parsing: the first
slash field is the month when it is at most 12, otherwise the two fields
are swapped; a two-digit year is expanded to the current century
(strptime-style: 0-68 to 2000s, 69-99 to 1900s); an AM/PM marker requires
an hour of at most 12 and adjusts it; out-of-range components make the
parse fail, which `errors='coerce'` turns into `NaT` (the row is dropped
later by `dropna`).  This models the pandas/dateutil library behaviour on
strings of the shape matched by the pattern; the library itself is outside
the repository. -/

/-- A parsed timestamp value. -/
structure DateTime where
  year : Nat
  month : Nat
  day : Nat
  hour : Nat
  minute : Nat
  second : Nat
deriving DecidableEq, Repr

/-- Numeric value of a digit run. -/
def digitsToNat (cs : List Char) : Nat :=
  cs.foldl (fun a c => a * 10 + (c.toNat - '0'.toNat)) 0

/-- Gregorian leap year. -/
def isLeap (y : Nat) : Bool :=
  y % 4 = 0 && (y % 100 ≠ 0 || y % 400 = 0)

/-- Number of days in a month. -/
def daysInMonth (y m : Nat) : Nat :=
  if m = 2 then (if isLeap y then 29 else 28)
  else if m = 4 || m = 6 || m = 9 || m = 11 then 30
  else 31

/-- Two-digit years are expanded strptime-style. -/
def expandYear (y : Nat) : Nat :=
  if y < 100 then (if y ≤ 68 then 2000 + y else 1900 + y) else y

/-- dateutil-style resolution of the two slash fields into (month, day):
month-first unless the first field cannot be a month. -/
def resolveMonthDay (a b : Nat) : Option (Nat × Nat) :=
  if 1 ≤ a && a ≤ 12 then some (a, b)
  else if 1 ≤ b && b ≤ 12 then some (b, a)
  else none

/-- AM/PM adjustment of the hour field; fails above 12. -/
def adjustAmPm (h : Nat) (isPm : Bool) : Option Nat :=
  if h > 12 then none
  else if isPm then (if h < 12 then some (h + 12) else some 12)
  else (if h = 12 then some 0 else some h)

/-- Validation and normalization of the extracted numeric components. -/
def mkDatetime (a b y h mi ss : Nat) (isPm : Bool) : Option DateTime :=
  match resolveMonthDay a b with
  | none => none
  | some (month, day) =>
    if day = 0 || day > daysInMonth (expandYear y) month then none
    else
      match adjustAmPm h isPm with
      | none => none
      | some hour =>
        if mi ≥ 60 || ss ≥ 60 then none
        else some ⟨expandYear y, month, day, hour, mi, ss⟩

/-- `pd.to_datetime(·, errors='coerce')` on one matched timestamp string:
`some` a normalized datetime, or `none` (`NaT`) when a component is out of
range. -/
def parseDatetime (cs : List Char) : Option DateTime :=
  match pDigits 1 2 cs with
  | none => none
  | some (a, cs) =>
  match pChar '/' cs with
  | none => none
  | some (_, cs) =>
  match pDigits 1 2 cs with
  | none => none
  | some (b, cs) =>
  match pChar '/' cs with
  | none => none
  | some (_, cs) =>
  match pDigits 2 4 cs with
  | none => none
  | some (y, cs) =>
  match pSeq [pChar ',', pWs] cs with
  | none => none
  | some (_, cs) =>
  match pDigits 1 2 cs with
  | none => none
  | some (h, cs) =>
  match pChar ':' cs with
  | none => none
  | some (_, cs) =>
  match pDigits 2 2 cs with
  | none => none
  | some (mi, cs) =>
  match pOptSec cs with
  | none => none
  | some (ss, cs) =>
  match pWs cs with
  | none => none
  | some (_, cs) =>
  match pAmPm cs with
  | none => none
  | some (ap, _) =>
    mkDatetime (digitsToNat a) (digitsToNat b) (digitsToNat y) (digitsToNat h)
      (digitsToNat mi) (digitsToNat (ss.drop 1))
      (ap.headD 'A' = 'P' || ap.headD 'A' = 'p')

/-- `timestamp.dt.day_name()`: Sakamoto's weekday formula, 0 = Sunday. -/
def weekdayNum (y m d : Nat) : Nat :=
  let t := [0, 3, 2, 5, 0, 3, 5, 1, 4, 6, 2, 4]
  let y' := if m < 3 then y - 1 else y
  (y' + y' / 4 + y' / 400 + t.getD (m - 1) 0 + d - y' / 100) % 7

/-- English weekday names indexed from Sunday. -/
def weekdayNames : List String :=
  ["Sunday", "Monday", "Tuesday", "Wednesday", "Thursday", "Friday", "Saturday"]

/-- `timestamp.dt.day_name()` of a parsed timestamp. -/
def dayName (dt : DateTime) : String :=
  weekdayNames.getD (weekdayNum dt.year dt.month dt.day) ""

/-- English month names. -/
def monthNames : List String :=
  ["January", "February", "March", "April", "May", "June", "July",
   "August", "September", "October", "November", "December"]

/-- `timestamp.dt.month_name()` of a parsed timestamp. -/
def monthName (m : Nat) : String :=
  monthNames.getD (m - 1) ""

/-!  Per-record derived fields (`src/utils.py` lines 55-76). -/

/-- ASCII lowering of a message, modelling the `case=False` flag of
`Series.str.contains` on the ASCII search phrases. -/
def toLowerList (cs : List Char) : List Char :=
  cs.map Char.toLower

/-- Substring test: the needle occurs contiguously somewhere in the hay. -/
def containsSeq (hay needle : List Char) : Bool :=
  if needle.isPrefixOf hay then true
  else
    match hay with
    | [] => false
    | _ :: t => containsSeq t needle

/-- The four media placeholder phrases of the alternation
`<Media omitted>|image omitted|video omitted|sticker omitted`, verbatim
from `src/utils.py` line 55. -/
def mediaPhrases : List String :=
  ["<Media omitted>", "image omitted", "video omitted", "sticker omitted"]

/-- `df['message'].str.contains(..., case=False)` for the media
alternation: some phrase occurs case-insensitively as a substring. -/
def hasMedia (msg : List Char) : Bool :=
  mediaPhrases.any fun p => containsSeq (toLowerList msg) (toLowerList p.data)

/-- A match of `https?://[^\s]+` starting at the current position: `http`,
an optional `s`, `://`, and at least one non-whitespace character.  The
optional `s` needs no backtracking: when the next character is `s` and the
rest fails, the alternative without `s` would have to match `://` against
`s`, which fails as well. -/
def urlAt (cs : List Char) : Bool :=
  match cs with
  | 'h' :: 't' :: 't' :: 'p' :: rest =>
    let rest2 :=
      match rest with
      | 's' :: r => r
      | r => r
    match rest2 with
    | ':' :: '/' :: '/' :: c :: _ => !isWs c
    | _ => false
  | _ => false

/-- `df['message'].str.contains(r'(https?://[^\s]+)')`: the URL pattern
matches somewhere in the message. -/
def hasUrl (msg : List Char) : Bool :=
  match msg with
  | [] => false
  | _ :: t => urlAt msg || hasUrl t

/-- Membership test `c in emoji.EMOJI_DATA` of the `emoji` library,
restricted to a fixed finite table.  `EMOJI_DATA` is a dictionary keyed by
emoji strings; a single character is a member exactly when that single
codepoint is itself an emoji, so the Fitzpatrick skin-tone modifier
U+1F3FD is a member while no ASCII character is.  The library ships
thousands of entries; this embeds the members relevant to the inputs
considered (all ASCII characters are non-members, as in the library). -/
def isEmojiChar (c : Char) : Bool :=
  c = '😀' || c = '😂' || c = '👍' || c = '🏽' || c = '❤' || c = '🎉'

/-- Python `str.strip()`: remove leading and trailing whitespace. -/
def pyStrip (cs : List Char) : List Char :=
  ((cs.dropWhile isWs).reverse.dropWhile isWs).reverse

/-- One row of the dataframe returned by `preprocess_chat`, with all
derived columns. -/
structure Record where
  timestamp : DateTime
  user : String
  message : String
  has_media : Bool
  has_url : Bool
  emojis : List Char
  emoji_count : Nat
  message_length : Nat
  date : Nat × Nat × Nat
  day : String
  hour : Nat
  month : String
  year : Nat
deriving DecidableEq, Repr

/-- Construction of one row from the three capture groups and its parsed
timestamp, following `src/utils.py` lines 55-76: media and URL flags,
per-character emoji extraction and its length, message length, the date
columns derived from the timestamp, and the stripped user name. -/
def mkRecord (user msg : List Char) (dt : DateTime) : Record :=
  { timestamp := dt
    user := String.mk (pyStrip user)
    message := String.mk msg
    has_media := hasMedia msg
    has_url := hasUrl msg
    emojis := msg.filter isEmojiChar
    emoji_count := (msg.filter isEmojiChar).length
    message_length := msg.length
    date := (dt.year, dt.month, dt.day)
    day := dayName dt
    hour := dt.hour
    month := monthName dt.month
    year := dt.year }

/-- One capture triple to an optional row: `pd.to_datetime(errors='coerce')`
followed by `dropna` drops exactly the rows whose timestamp fails to
normalize. -/
def buildRecord (ts user msg : List Char) : Option Record :=
  match parseDatetime ts with
  | some dt => some (mkRecord user msg dt)
  | none => none

/-- All rows of the returned dataframe, in match order. -/
def buildRecords (ms : List (List Char × List Char × List Char)) : List Record :=
  ms.filterMap fun t => buildRecord t.1 t.2.1 t.2.2

/-!  File decoding (`src/utils.py` lines 23-31).

The upload's `getvalue()` yields a byte string; the code tries
`decode('utf-8')`, then `decode('utf-8-sig')`, then `decode('latin-1')`,
returning `None` when all raise.  Bytes are modelled as natural numbers
below 256.  The utf-8 decoder is the strict stdlib one: continuation
bytes, overlong forms, surrogates and values above U+10FFFF are rejected.
`latin-1` maps every byte to the codepoint of the same value and never
raises, so the `None` branch of the chain is unreachable. -/

/-- A utf-8 continuation byte. -/
def contByte (b : Nat) : Bool :=
  0x80 ≤ b && b < 0xC0

/-- Strict utf-8 decoding; the fuel is the length of the input. -/
def utf8DecodeAux : Nat → List Nat → Option (List Char)
  | _, [] => some []
  | 0, _ :: _ => none
  | fuel + 1, b :: bs =>
    if b < 0x80 then
      (utf8DecodeAux fuel bs).map (Char.ofNat b :: ·)
    else if 0xC2 ≤ b && b ≤ 0xDF then
      match bs with
      | c1 :: bs1 =>
        if contByte c1 then
          (utf8DecodeAux fuel bs1).map
            (Char.ofNat ((b - 0xC0) * 0x40 + (c1 - 0x80)) :: ·)
        else none
      | [] => none
    else if 0xE0 ≤ b && b ≤ 0xEF then
      match bs with
      | c1 :: c2 :: bs1 =>
        let lo1 := if b = 0xE0 then 0xA0 else 0x80
        let hi1 := if b = 0xED then 0xA0 else 0xC0
        if lo1 ≤ c1 && c1 < hi1 && contByte c2 then
          (utf8DecodeAux fuel bs1).map
            (Char.ofNat ((b - 0xE0) * 0x1000 + (c1 - 0x80) * 0x40 + (c2 - 0x80)) :: ·)
        else none
      | _ => none
    else if 0xF0 ≤ b && b ≤ 0xF4 then
      match bs with
      | c1 :: c2 :: c3 :: bs1 =>
        let lo1 := if b = 0xF0 then 0x90 else 0x80
        let hi1 := if b = 0xF4 then 0x90 else 0xC0
        if lo1 ≤ c1 && c1 < hi1 && contByte c2 && contByte c3 then
          (utf8DecodeAux fuel bs1).map
            (Char.ofNat ((b - 0xF0) * 0x40000 + (c1 - 0x80) * 0x1000 +
              (c2 - 0x80) * 0x40 + (c3 - 0x80)) :: ·)
        else none
      | _ => none
    else none

/-- `bytes.decode('utf-8')`. -/
def utf8Decode (bs : List Nat) : Option (List Char) :=
  utf8DecodeAux bs.length bs

/-- `bytes.decode('utf-8-sig')`: utf-8 after stripping a leading BOM. -/
def utf8SigDecode (bs : List Nat) : Option (List Char) :=
  match bs with
  | 0xEF :: 0xBB :: 0xBF :: rest => utf8Decode rest
  | _ => utf8Decode bs

/-- `bytes.decode('latin-1')`: total, byte value = codepoint. -/
def latin1Decode (bs : List Nat) : List Char :=
  bs.map Char.ofNat

/-- The decoding chain of lines 23-31: utf-8, else utf-8-sig, else
latin-1.  The final `except: return None` is modelled by the `none` case
of the chain, which never fires because latin-1 decoding is total. -/
def pyDecode (bs : List Nat) : Option (List Char) :=
  match utf8Decode bs with
  | some s => some s
  | none =>
    match utf8SigDecode bs with
    | some s => some s
    | none => some (latin1Decode bs)

/-- utf-8 encoding of one character, used to build concrete byte inputs. -/
def utf8Encode (c : Char) : List Nat :=
  let n := c.toNat
  if n < 0x80 then [n]
  else if n < 0x800 then [0xC0 + n / 0x40, 0x80 + n % 0x40]
  else if n < 0x10000 then
    [0xE0 + n / 0x1000, 0x80 + (n / 0x40) % 0x40, 0x80 + n % 0x40]
  else
    [0xF0 + n / 0x40000, 0x80 + (n / 0x1000) % 0x40,
     0x80 + (n / 0x40) % 0x40, 0x80 + n % 0x40]

/-- utf-8 byte string of a Lean string. -/
def strBytes (s : String) : List Nat :=
  (s.data.map utf8Encode).flatten

/-!  The function `preprocess_chat` itself (`src/utils.py` lines 15-78).

A Python call either returns a value or raises an uncaught exception; the
sum type below captures both.  When the primary pattern finds no matches,
line 38 hands the alternative pattern to `re.findall`.  That pattern
string has seven closing but only six opening group parentheses (the
lookahead is closed twice), so `re.compile` inside `re.findall` raises
`re.error` before any matching is attempted; see the theorems on
`regexParensBalanced`.  The branch is therefore embedded as the raised
exception. -/

/-- Outcome of a Python call: a returned value or an uncaught exception. -/
inductive PyResult (α : Type) where
  | ret : α → PyResult α
  | exn : String → PyResult α
deriving DecidableEq, Repr

/-- `preprocess_chat` of `src/utils.py`: `None` upload returns `None`;
the bytes are decoded; the primary pattern is applied; with no matches the
malformed alternative pattern makes `re.findall` raise `re.error`;
otherwise the rows are built and returned. -/
def preprocess_chat (file_upload : Option (List Nat)) : PyResult (Option (List Record)) :=
  match file_upload with
  | none => PyResult.ret none
  | some bs =>
    match pyDecode bs with
    | none => PyResult.ret none
    | some content =>
      let ms := refindall content
      if ms.isEmpty then PyResult.exn "re.error: unbalanced parenthesis"
      else PyResult.ret (some (buildRecords ms))

/-- Which branch of `preprocess_chat` fires, for reasoning about the
distinguishability of failure modes. -/
inductive ParseOutcome where
  | noInput
  | unreadable
  | altCrash
  | parsed (rs : List Record)
deriving DecidableEq, Repr

/-- The branch taken by `preprocess_chat` on a given upload. -/
def preprocessOutcome (file_upload : Option (List Nat)) : ParseOutcome :=
  match file_upload with
  | none => ParseOutcome.noInput
  | some bs =>
    match pyDecode bs with
    | none => ParseOutcome.unreadable
    | some content =>
      let ms := refindall content
      if ms.isEmpty then ParseOutcome.altCrash
      else ParseOutcome.parsed (buildRecords ms)

/-!  Concrete inputs used by the theorems below. -/

/-- A default row used only to read elements out of concrete result lists. -/
def emptyRecord : Record :=
  { timestamp := ⟨0, 0, 0, 0, 0, 0⟩, user := "", message := "",
    has_media := false, has_url := false, emojis := [], emoji_count := 0,
    message_length := 0, date := (0, 0, 0), day := "", hour := 0,
    month := "", year := 0 }

/-- A transcript in the 24-hour dialect (no AM/PM marker). -/
def c1input : String := "1/2/23, 21:05 - Alice: Hello"

/-- A transcript whose middle block has a syntactically matching but
numerically invalid date (day 32). -/
def c3input : String :=
  "1/2/23, 9:05 AM - Alice: Hi\n32/1/23, 9:06 AM - Bob: Bad\n1/3/23, 9:07 AM - Carol: Yo"

/-- The rows parsed from `c3input`. -/
def c3records : List Record :=
  buildRecords (refindall c3input.data)

/-- A transcript whose first message body spans two lines and quotes a
timestamp-shaped string in the middle of a line. -/
def c4input : String :=
  "1/2/23, 9:05 AM - Alice: part one\nquoted 3/4/23, 9:06 AM - Eve: hi\n1/2/23, 9:07 AM - Bob: ok"

/-- The concrete scenario input of the specification. -/
def c5input : String :=
  "1/2/23, 9:05 AM - Alice: Hello there\n1/2/23, 9:06 AM - Bob: <Media omitted>\n1/2/23, 9:07 AM - Alice: check https://example.com 😀"

/-- The rows returned by `preprocess_chat` on the utf-8 bytes of
`c5input`. -/
def c5records : List Record :=
  match preprocess_chat (some (strBytes c5input)) with
  | PyResult.ret (some rs) => rs
  | _ => []

/-- A transcript whose message is one emoji grapheme made of two
codepoints (thumbs up + Fitzpatrick type-4 modifier). -/
def c7input : String := "1/2/23, 9:05 AM - Alice: 👍🏽"

/-- The rows parsed from `c7input`. -/
def c7records : List Record :=
  buildRecords (refindall c7input.data)

/-!  Helper lemmas. -/

/-- The decoding chain never fails: `latin-1` accepts every byte string. -/
theorem pyDecode_isSome (bs : List Nat) : (pyDecode bs).isSome = true := by
  unfold pyDecode
  cases utf8Decode bs with
  | some s => rfl
  | none =>
    cases utf8SigDecode bs with
    | some s => rfl
    | none => rfl

/-- Every row of `buildRecords` comes from a capture triple whose
timestamp text parsed successfully, through `mkRecord`. -/
theorem mem_buildRecords {ms : List (List Char × List Char × List Char)} {r : Record}
    (h : r ∈ buildRecords ms) :
    ∃ t ∈ ms, ∃ dt, parseDatetime t.1 = some dt ∧ r = mkRecord t.2.1 t.2.2 dt := by
  unfold buildRecords at h
  rw [List.mem_filterMap] at h
  obtain ⟨t, ht, hb⟩ := h
  unfold buildRecord at hb
  cases hp : parseDatetime t.1 with
  | none => rw [hp] at hb; exact absurd hb (by simp)
  | some dt =>
    rw [hp] at hb
    refine ⟨t, ht, dt, hp, ?_⟩
    injection hb with hb
    exact hb.symm

/-- A returned row list is always `buildRecords` of the primary-pattern
matches of the decoded content. -/
theorem preprocess_ret_some {fu : Option (List Nat)} {rs : List Record}
    (h : preprocess_chat fu = PyResult.ret (some rs)) :
    ∃ ms, rs = buildRecords ms := by
  cases fu with
  | none => simp [preprocess_chat] at h
  | some bs =>
    cases hd : pyDecode bs with
    | none => simp [preprocess_chat, hd] at h
    | some content =>
      simp only [preprocess_chat, hd] at h
      by_cases he : (refindall content).isEmpty
      · simp [he] at h
      · simp only [he, if_false, Bool.false_eq_true] at h
        refine ⟨refindall content, ?_⟩
        injection h with h
        injection h with h
        exact h.symm

/-- A month resolved by the dateutil rule is between 1 and 12. -/
theorem resolveMonthDay_month {a b m d : Nat}
    (h : resolveMonthDay a b = some (m, d)) : 1 ≤ m ∧ m ≤ 12 := by
  unfold resolveMonthDay at h
  by_cases h1 : (1 ≤ a && a ≤ 12) = true
  · rw [if_pos h1] at h
    injection h with h
    obtain ⟨h2, h3⟩ := h
    simp only [Bool.and_eq_true, decide_eq_true_eq] at h1
    omega
  · rw [if_neg h1] at h
    by_cases h2 : (1 ≤ b && b ≤ 12) = true
    · rw [if_pos h2] at h
      injection h with h
      obtain ⟨h3, h4⟩ := h
      simp only [Bool.and_eq_true, decide_eq_true_eq] at h2
      omega
    · rw [if_neg h2] at h
      exact absurd h (by simp)

/-- No month has more than 31 days. -/
theorem daysInMonth_le (y m : Nat) : daysInMonth y m ≤ 31 := by
  unfold daysInMonth
  split
  · split <;> omega
  · split <;> omega

/-- The hour after AM/PM adjustment is at most 23. -/
theorem adjustAmPm_le {h : Nat} {pm : Bool} {h2 : Nat}
    (he : adjustAmPm h pm = some h2) : h2 ≤ 23 := by
  unfold adjustAmPm at he
  by_cases hb : h > 12
  · rw [if_pos hb] at he; exact absurd he (by simp)
  · rw [if_neg hb] at he
    cases pm with
    | true =>
      simp only [if_true] at he
      by_cases hc : h < 12
      · rw [if_pos hc] at he; injection he with he; omega
      · rw [if_neg hc] at he; injection he with he; omega
    | false =>
      simp only [Bool.false_eq_true, if_false] at he
      by_cases hc : h = 12
      · rw [if_pos hc] at he; injection he with he; omega
      · rw [if_neg hc] at he; injection he with he; omega

/-- A datetime accepted by the validation has all components in range:
no sentinel value can come out of a successful parse. -/
theorem mkDatetime_valid {a b y h mi ss : Nat} {pm : Bool} {dt : DateTime}
    (he : mkDatetime a b y h mi ss pm = some dt) :
    1 ≤ dt.month ∧ dt.month ≤ 12 ∧ 1 ≤ dt.day ∧ dt.day ≤ 31 ∧
      dt.hour ≤ 23 ∧ dt.minute ≤ 59 ∧ dt.second ≤ 59 := by
  unfold mkDatetime at he
  split at he
  · exact absurd he (by simp)
  next m d hr =>
    split at he
    · exact absurd he (by simp)
    next hd =>
      split at he
      · exact absurd he (by simp)
      next hour ha =>
        split at he
        · exact absurd he (by simp)
        next hms =>
          injection he with he
          subst he
          have hm := resolveMonthDay_month hr
          have hhour := adjustAmPm_le ha
          have hdm := daysInMonth_le (expandYear y) m
          simp only [Bool.or_eq_true, decide_eq_true_eq, not_or, not_lt, not_le] at hd hms
          exact ⟨hm.1, hm.2, show 1 ≤ d by omega, show d ≤ 31 by omega,
            hhour, show mi ≤ 59 by omega, show ss ≤ 59 by omega⟩

/-- Every timestamp accepted by the coerce-style conversion has all
components in range. -/
theorem parseDatetime_valid {cs : List Char} {dt : DateTime}
    (h : parseDatetime cs = some dt) :
    1 ≤ dt.month ∧ dt.month ≤ 12 ∧ 1 ≤ dt.day ∧ dt.day ≤ 31 ∧
      dt.hour ≤ 23 ∧ dt.minute ≤ 59 ∧ dt.second ≤ 59 := by
  unfold parseDatetime at h
  repeat' split at h
  any_goals exact mkDatetime_valid h
  all_goals simp at h

/-!  Claims. -/

/-- Claim C1: the specification requires that a 24-hour transcript (no
AM/PM marker) parse via the alternate pattern when the primary pattern
finds nothing.  The code violates this: the primary pattern is a balanced
regex, but the alternative pattern of line 38 has an unbalanced
parenthesis, so `re.findall` raises `re.error` at pattern-compile time and
`preprocess_chat` raises instead of returning a non-empty record
sequence. -/
theorem claim_C1 :
    regexParensBalanced primaryPattern = true ∧
    regexParensBalanced altPattern = false ∧
    refindall c1input.data = [] ∧
    preprocess_chat (some (strBytes c1input)) =
      PyResult.exn "re.error: unbalanced parenthesis" :=
  ⟨rfl, rfl, rfl, rfl⟩

/-- Claim C2: the caller can distinguish unreadable input from
decoded-but-unrecognized input.  Decoding never fails (the latin-1
fallback accepts every byte string), so the unreadable branch — whose
value would be `None` — is unreachable; a decoded input on which the
primary pattern finds no matches makes the call raise `re.error`, a value
distinct from that `None`. -/
theorem claim_C2 (bs : List Nat) (content : List Char)
    (hd : pyDecode bs = some content) (hf : refindall content = []) :
    preprocess_chat (some bs) = PyResult.exn "re.error: unbalanced parenthesis" ∧
    preprocess_chat (some bs) ≠ PyResult.ret none ∧
    preprocessOutcome (some bs) ≠ ParseOutcome.unreadable ∧
    (pyDecode bs).isSome = true := by
  have h1 : preprocess_chat (some bs) = PyResult.exn "re.error: unbalanced parenthesis" := by
    simp only [preprocess_chat, hd]
    simp [hf]
  refine ⟨h1, ?_, ?_, pyDecode_isSome bs⟩
  · rw [h1]
    exact fun hc => PyResult.noConfusion hc
  · simp only [preprocessOutcome, hd]
    simp [hf]

/-- Witness for claim C2: the decoded text `hello` matches no message
pattern, and the two failure signals differ on it. -/
theorem claim_C2_witness :
    preprocess_chat (some (strBytes "hello")) = PyResult.exn "re.error: unbalanced parenthesis" ∧
    preprocess_chat (some (strBytes "hello")) ≠ PyResult.ret none ∧
    preprocessOutcome (some (strBytes "hello")) ≠ ParseOutcome.unreadable ∧
    (pyDecode (strBytes "hello")).isSome = true :=
  claim_C2 (strBytes "hello") ("hello").data rfl rfl

/-- Claim C3: a block whose timestamp matches the coarse pattern but fails
numeric normalization (day 32) is dropped while the remaining well-formed
blocks are returned in order, and every returned record has a timestamp
with all components in range — no null or sentinel time survives. -/
theorem claim_C3 (fu : Option (List Nat)) (rs : List Record) (r : Record)
    (h : preprocess_chat fu = PyResult.ret (some rs)) (hr : r ∈ rs) :
    (1 ≤ r.timestamp.month ∧ r.timestamp.month ≤ 12 ∧
     1 ≤ r.timestamp.day ∧ r.timestamp.day ≤ 31 ∧
     r.timestamp.hour ≤ 23 ∧ r.timestamp.minute ≤ 59) ∧
    (refindall c3input.data).length = 3 ∧
    parseDatetime ("32/1/23, 9:06 AM").data = none ∧
    c3records.map Record.user = ["Alice", "Carol"] ∧
    c3records.length = 2 := by
  obtain ⟨ms, hms⟩ := preprocess_ret_some h
  subst hms
  obtain ⟨t, ht, dt, hdt, hrec⟩ := mem_buildRecords hr
  subst hrec
  have hv := parseDatetime_valid hdt
  exact ⟨⟨hv.1, hv.2.1, hv.2.2.1, hv.2.2.2.1, hv.2.2.2.2.1, hv.2.2.2.2.2.1⟩,
    rfl, rfl, rfl, rfl⟩

/-- Witness for claim C3 at the first record parsed from the transcript
with the day-32 block. -/
theorem claim_C3_witness :
    (1 ≤ (c3records.getD 0 emptyRecord).timestamp.month ∧
     (c3records.getD 0 emptyRecord).timestamp.month ≤ 12 ∧
     1 ≤ (c3records.getD 0 emptyRecord).timestamp.day ∧
     (c3records.getD 0 emptyRecord).timestamp.day ≤ 31 ∧
     (c3records.getD 0 emptyRecord).timestamp.hour ≤ 23 ∧
     (c3records.getD 0 emptyRecord).timestamp.minute ≤ 59) ∧
    (refindall c3input.data).length = 3 ∧
    parseDatetime ("32/1/23, 9:06 AM").data = none ∧
    c3records.map Record.user = ["Alice", "Carol"] ∧
    c3records.length = 2 :=
  claim_C3 (some (strBytes c3input)) c3records (c3records.getD 0 emptyRecord)
    rfl (by decide)

/-- Claim C4: a boundary for the message group exists only at the start of
a line (the suffix begins with a newline) or at the end of the subject, so
an embedded newline not followed by a timestamped line is kept inside one
record, and a timestamp-shaped string in the middle of a line is not a
boundary; on the concrete two-message transcript the quoted timestamp
stays inside the first message body. -/
theorem claim_C4 :
    (∀ cs : List Char, lookaheadOk cs = true → cs = [] ∨ cs.head? = some '\n') ∧
    refindall c4input.data =
      [("1/2/23, 9:05 AM".data, "Alice".data,
        ("part one\nquoted 3/4/23, 9:06 AM - Eve: hi").data),
       ("1/2/23, 9:07 AM".data, "Bob".data, "ok".data)] := by
  constructor
  · intro cs h
    cases cs with
    | nil => exact Or.inl rfl
    | cons c rest =>
      right
      unfold lookaheadOk at h
      rw [Bool.or_eq_true] at h
      have hc : c = '\n' := by
        rcases h with h | h
        · by_contra hne
          rw [show nlBoundary (c :: rest) = false from by simp [nlBoundary, hne]] at h
          exact Bool.noConfusion h
        · unfold dollarOk at h
          rw [Bool.and_eq_true] at h
          exact of_decide_eq_true h.1
      subst hc
      rfl
  · rfl

/-- Witness for claim C4 at a suffix where the lookahead does hold: a
newline followed by a timestamped line. -/
theorem claim_C4_witness :
    ("\n1/2/23, 9:07 AM - x").data = [] ∨
      (("\n1/2/23, 9:07 AM - x").data).head? = some '\n' :=
  claim_C4.1 ("\n1/2/23, 9:07 AM - x").data (by decide)

/-- Claim C5 counterexample: on the specification's concrete scenario the
second record's message is the full placeholder `<Media omitted>`, whose
length is 15, not 14 as claimed. -/
theorem claim_C5_counterexample :
    c5records.length = 3 ∧
    (c5records.getD 1 emptyRecord).message = "<Media omitted>" ∧
    (c5records.getD 1 emptyRecord).message_length = 15 ∧
    ¬(c5records.getD 1 emptyRecord).message_length = 14 :=
  ⟨rfl, rfl, rfl, by decide⟩

/-- Claim C5 as amended: the concrete scenario yields exactly 3 records;
the second has `has_media` and message length 15; the third has a URL, the
single emoji, and the trimmed user `Alice`. -/
theorem claim_C5 :
    c5records.length = 3 ∧
    (c5records.getD 1 emptyRecord).has_media = true ∧
    (c5records.getD 1 emptyRecord).message_length = 15 ∧
    (c5records.getD 2 emptyRecord).has_url = true ∧
    (c5records.getD 2 emptyRecord).emojis = ['😀'] ∧
    (c5records.getD 2 emptyRecord).emoji_count = 1 ∧
    (c5records.getD 2 emptyRecord).user = "Alice" :=
  ⟨rfl, rfl, rfl, rfl, rfl, rfl, rfl⟩

/-- Claim C6: for every record returned by `preprocess_chat`, the derived
fields `date`, `day`, `hour`, `month`, `year` are all defined and are the
stated functions of that record's timestamp. -/
theorem claim_C6 (fu : Option (List Nat)) (rs : List Record) (r : Record)
    (h : preprocess_chat fu = PyResult.ret (some rs)) (hr : r ∈ rs) :
    r.date = (r.timestamp.year, r.timestamp.month, r.timestamp.day) ∧
    r.day = dayName r.timestamp ∧
    r.hour = r.timestamp.hour ∧
    r.month = monthName r.timestamp.month ∧
    r.year = r.timestamp.year := by
  obtain ⟨ms, hms⟩ := preprocess_ret_some h
  subst hms
  obtain ⟨t, ht, dt, hdt, hrec⟩ := mem_buildRecords hr
  subst hrec
  exact ⟨rfl, rfl, rfl, rfl, rfl⟩

/-- Witness for claim C6 at the first record of a concrete parse. -/
theorem claim_C6_witness :
    (c3records.getD 0 emptyRecord).date =
      ((c3records.getD 0 emptyRecord).timestamp.year,
       (c3records.getD 0 emptyRecord).timestamp.month,
       (c3records.getD 0 emptyRecord).timestamp.day) ∧
    (c3records.getD 0 emptyRecord).day = dayName (c3records.getD 0 emptyRecord).timestamp ∧
    (c3records.getD 0 emptyRecord).hour = (c3records.getD 0 emptyRecord).timestamp.hour ∧
    (c3records.getD 0 emptyRecord).month = monthName (c3records.getD 0 emptyRecord).timestamp.month ∧
    (c3records.getD 0 emptyRecord).year = (c3records.getD 0 emptyRecord).timestamp.year :=
  claim_C6 (some (strBytes c3input)) c3records (c3records.getD 0 emptyRecord)
    rfl (by decide)

/-- Claim C7: the emoji list of every returned record is the per-codepoint
filter of its message against the fixed emoji table, in order of
appearance, and `emoji_count` is its length; on a message consisting of
one grapheme made of two emoji codepoints (thumbs up + skin-tone
modifier), two entries are produced. -/
theorem claim_C7 (fu : Option (List Nat)) (rs : List Record) (r : Record)
    (h : preprocess_chat fu = PyResult.ret (some rs)) (hr : r ∈ rs) :
    (r.emojis = r.message.data.filter isEmojiChar ∧
     r.emoji_count = r.emojis.length) ∧
    c7records.map Record.emojis = [['👍', '🏽']] ∧
    c7records.map Record.emoji_count = [2] := by
  obtain ⟨ms, hms⟩ := preprocess_ret_some h
  subst hms
  obtain ⟨t, ht, dt, hdt, hrec⟩ := mem_buildRecords hr
  subst hrec
  exact ⟨⟨rfl, rfl⟩, rfl, rfl⟩

/-- Witness for claim C7 at the record whose message is the two-codepoint
emoji grapheme. -/
theorem claim_C7_witness :
    ((c7records.getD 0 emptyRecord).emojis =
      (c7records.getD 0 emptyRecord).message.data.filter isEmojiChar ∧
     (c7records.getD 0 emptyRecord).emoji_count =
      (c7records.getD 0 emptyRecord).emojis.length) ∧
    c7records.map Record.emojis = [['👍', '🏽']] ∧
    c7records.map Record.emoji_count = [2] :=
  claim_C7 (some (strBytes c7input)) c7records (c7records.getD 0 emptyRecord)
    rfl (by decide)

/-- Claim C8: parsing is deterministic and depends only on the input
value: the embedding of `preprocess_chat` is a pure function (the source
reads no mutable state besides its argument), so equal uploads produce
identical (by value) results. -/
theorem claim_C8 (fu1 fu2 : Option (List Nat)) (h : fu1 = fu2) :
    preprocess_chat fu1 = preprocess_chat fu2 := by
  rw [h]

/-- Witness for claim C8 on a concrete upload. -/
theorem claim_C8_witness :
    preprocess_chat (some (strBytes c5input)) = preprocess_chat (some (strBytes c5input)) :=
  claim_C8 (some (strBytes c5input)) (some (strBytes c5input)) rfl

/-- Claim C9: `has_media` of every returned record is exactly the
case-insensitive substring test of the four placeholder phrases against
the message body; bodies with surrounding text around a phrase count, and
the test is a substring search, not a whole-body comparison. -/
theorem claim_C9 (fu : Option (List Nat)) (rs : List Record) (r : Record)
    (h : preprocess_chat fu = PyResult.ret (some rs)) (hr : r ∈ rs) :
    (r.has_media =
      mediaPhrases.any fun p => containsSeq (toLowerList r.message.data) (toLowerList p.data)) ∧
    hasMedia ("note image omitted here").data = true ∧
    hasMedia ("<MEDIA OMITTED> plus trailing text").data = true ∧
    hasMedia ("imageomitted").data = false := by
  obtain ⟨ms, hms⟩ := preprocess_ret_some h
  subst hms
  obtain ⟨t, ht, dt, hdt, hrec⟩ := mem_buildRecords hr
  subst hrec
  exact ⟨rfl, rfl, rfl, rfl⟩

/-- Witness for claim C9 at the second record of the concrete scenario,
whose body is the media placeholder. -/
theorem claim_C9_witness :
    ((c5records.getD 1 emptyRecord).has_media =
      mediaPhrases.any fun p =>
        containsSeq (toLowerList (c5records.getD 1 emptyRecord).message.data)
          (toLowerList p.data)) ∧
    hasMedia ("note image omitted here").data = true ∧
    hasMedia ("<MEDIA OMITTED> plus trailing text").data = true ∧
    hasMedia ("imageomitted").data = false :=
  claim_C9 (some (strBytes c5input)) c5records (c5records.getD 1 emptyRecord)
    rfl (by decide)

/-- Claim C10: a `None` upload makes `preprocess_chat` return `None`
immediately, before any decoding or pattern matching. -/
theorem claim_C10 : preprocess_chat none = PyResult.ret none := rfl
